import Mathlib

/-!
Shallow embedding of the `diffychat` pallet (`src/pallets/template/src/lib.rs`).

The pallet keeps three storage maps:
  * `ItemByNicknameStore    : [u8; 21] → AccountId`            (OptionQuery)
  * `ItemByAccountIdStore   : AccountId → ItemByAccountId`     (ValueQuery)
  * `ContactByAccountIdStore: (AccountId, [u8; 1000]) → ContactByAccountId` (ValueQuery)
and exposes five dispatchables: `offer_chat`, `register`, `answer_chat`,
`upsert_contact`, `remove_contact`.  Storage maps are modelled as functions
into `Option` (presence in the backing key-value store); the `ValueQuery`
getters read through `Option.getD` with the Rust `Default` value, exactly as
the generated getters do.  Each dispatchable is modelled as a function from
the pre-state and the authenticated caller (`ensure_signed` already done by
the dispatcher) to `(DispatchResult, post-state, emitted events)`.
-/

namespace Diffychat

/-- Byte strings of a fixed length; stands for the Rust `[u8; n]` arrays. -/
abbrev Bytes (n : Nat) := { l : List Nat // l.length = n }

/-- The all-zero byte array `[0u8; n]`, the `Default` of a Rust byte array. -/
def zeroBytes (n : Nat) : Bytes n := ⟨List.replicate n 0, List.length_replicate n 0⟩

/-- Opaque `T::AccountId`; only used as a map key and event payload. -/
abbrev AccountId := Nat

/-- `struct ItemByAccountId { address: [u8; 32], nickname: [u8; 21] }`. -/
structure ItemByAccountId where
  address : Bytes 32
  nickname : Bytes 21
deriving DecidableEq

/-- `impl Default for ItemByAccountId` (derived): all-zero fields. -/
def ItemByAccountId.defaultValue : ItemByAccountId :=
  { address := zeroBytes 32, nickname := zeroBytes 21 }

/-- `struct ContactByAccountId { name: EncodedContactName }` with
`EncodedContactName = [u8; 1000]`. -/
structure ContactByAccountId where
  name : Bytes 1000
deriving DecidableEq

/-- `impl Default for ContactByAccountId { name: [0_u8; 1000] }`. -/
def ContactByAccountId.defaultValue : ContactByAccountId :=
  { name := zeroBytes 1000 }

/-- `enum Error<T>` of the pallet. -/
inductive Error where
  | AccountIdAlreadyRegistered
  | NicknameAlreadyRegistered
deriving DecidableEq

/-- `enum Event<T>` of the pallet; constructor fields in source order. -/
inductive Event where
  | Offer (offer : Bytes 2048) (offered_by : AccountId) (offered_to : AccountId)
      (welcome_msg : Bytes 300)
  | Answer (answer : Bytes 2048) (answer_from : AccountId) (answer_to : AccountId)
deriving DecidableEq

/-- `DispatchResult`. -/
abbrev DispatchResult := Except Error Unit

/-- The pallet's storage: the three maps, each as presence-in-store. -/
@[ext] structure PalletState where
  itemByNickname : Bytes 21 → Option AccountId
  itemByAccountId : AccountId → Option ItemByAccountId
  contactByAccountId : AccountId → Bytes 1000 → Option ContactByAccountId

/-- Genesis: every key absent. -/
def emptyState : PalletState :=
  { itemByNickname := fun _ => none
    itemByAccountId := fun _ => none
    contactByAccountId := fun _ _ => none }

/-- Result of a dispatchable: `DispatchResult`, post-state, deposited events. -/
abbrev CallResult := DispatchResult × PalletState × List Event

/-- `offer_chat`: deposits one `Offer` event, touches no storage. -/
def offer_chat (s : PalletState) (who : AccountId) (welcome_msg : Bytes 300)
    (offer : Bytes 2048) (toAcc : AccountId) : CallResult :=
  (Except.ok (), s, [Event.Offer offer who toAcc welcome_msg])

/-- `register`: rejects if the caller is already in `ItemByAccountIdStore`
(`AccountIdAlreadyRegistered`), then if the nickname is already in
`ItemByNicknameStore` (`NicknameAlreadyRegistered`); otherwise inserts into
both maps and deposits no event. -/
def register (s : PalletState) (owner : AccountId) (nickname : Bytes 21)
    (address : Bytes 32) : CallResult :=
  if (s.itemByAccountId owner).isSome then
    (Except.error Error.AccountIdAlreadyRegistered, s, [])
  else if (s.itemByNickname nickname).isSome then
    (Except.error Error.NicknameAlreadyRegistered, s, [])
  else
    (Except.ok (),
      { s with
        itemByNickname := fun n => if n = nickname then some owner else s.itemByNickname n
        itemByAccountId := fun a =>
          if a = owner then some { address := address, nickname := nickname }
          else s.itemByAccountId a },
      [])

/-- `answer_chat`: deposits one `Answer` event, touches no storage. -/
def answer_chat (s : PalletState) (who : AccountId) (answer : Bytes 2048)
    (toAcc : AccountId) : CallResult :=
  (Except.ok (), s, [Event.Answer answer who toAcc])

/-- `upsert_contact`: unconditionally `set`s the record at `(who, contact_addr)`. -/
def upsert_contact (s : PalletState) (who : AccountId) (contact_name : Bytes 1000)
    (contact_addr : Bytes 1000) : CallResult :=
  (Except.ok (),
    { s with
      contactByAccountId := fun a addr =>
        if a = who ∧ addr = contact_addr then some { name := contact_name }
        else s.contactByAccountId a addr },
    [])

/-- `remove_contact`: unconditionally `remove`s the key `(who, contact_addr)`. -/
def remove_contact (s : PalletState) (who : AccountId)
    (contact_addr : Bytes 1000) : CallResult :=
  (Except.ok (),
    { s with
      contactByAccountId := fun a addr =>
        if a = who ∧ addr = contact_addr then none
        else s.contactByAccountId a addr },
    [])

/-- Getter `get_address_by_account_id` (ValueQuery: default on absence). -/
def get_address_by_account_id (s : PalletState) (id : AccountId) : ItemByAccountId :=
  (s.itemByAccountId id).getD ItemByAccountId.defaultValue

/-- Getter `get_address_by_nickname` (OptionQuery). -/
def get_address_by_nickname (s : PalletState) (n : Bytes 21) : Option AccountId :=
  s.itemByNickname n

/-- Getter `get_contact_by_account_id` (ValueQuery: default on absence). -/
def get_contact_by_account_id (s : PalletState) (id : AccountId)
    (addr : Bytes 1000) : ContactByAccountId :=
  (s.contactByAccountId id addr).getD ContactByAccountId.defaultValue

/-- One extrinsic, with its already-authenticated caller. -/
inductive Call where
  | offer_chat (who : AccountId) (welcome_msg : Bytes 300) (offer : Bytes 2048)
      (toAcc : AccountId)
  | register (who : AccountId) (nickname : Bytes 21) (address : Bytes 32)
  | answer_chat (who : AccountId) (answer : Bytes 2048) (toAcc : AccountId)
  | upsert_contact (who : AccountId) (contact_name : Bytes 1000)
      (contact_addr : Bytes 1000)
  | remove_contact (who : AccountId) (contact_addr : Bytes 1000)

/-- Dispatch one call against a state. -/
def dispatch (s : PalletState) : Call → CallResult
  | .offer_chat who w o t => offer_chat s who w o t
  | .register who n a => register s who n a
  | .answer_chat who ans t => answer_chat s who ans t
  | .upsert_contact who n a => upsert_contact s who n a
  | .remove_contact who a => remove_contact s who a

/-- The state after one call (the dispatcher serialises calls; a failed call
leaves the state the error branch returned, which is the pre-state). -/
def step (s : PalletState) (c : Call) : PalletState :=
  (dispatch s c).2.1

/-- Run a sequence of calls. -/
def run (s : PalletState) (cs : List Call) : PalletState :=
  cs.foldl step s

/-- A concrete second nickname, distinct from `zeroBytes 21`. -/
def nickB : Bytes 21 := ⟨1 :: List.replicate 20 0, by simp⟩

theorem run_cons (s : PalletState) (c : Call) (cs : List Call) :
    run s (c :: cs) = run (step s c) cs := rfl

/-- C2: registering a fresh caller with a fresh nickname succeeds, inserts
exactly the two entries, leaves everything else untouched and emits nothing. -/
theorem register_fresh_success (s : PalletState) (caller : AccountId)
    (nick : Bytes 21) (addr : Bytes 32)
    (h1 : s.itemByAccountId caller = none) (h2 : s.itemByNickname nick = none) :
    (register s caller nick addr).1 = Except.ok () ∧
    (register s caller nick addr).2.2 = [] ∧
    (register s caller nick addr).2.1.itemByNickname nick = some caller ∧
    (register s caller nick addr).2.1.itemByAccountId caller =
      some { address := addr, nickname := nick } ∧
    (∀ n, n ≠ nick →
      (register s caller nick addr).2.1.itemByNickname n = s.itemByNickname n) ∧
    (∀ id, id ≠ caller →
      (register s caller nick addr).2.1.itemByAccountId id = s.itemByAccountId id) ∧
    (register s caller nick addr).2.1.contactByAccountId = s.contactByAccountId := by
  refine ⟨by simp [register, h1, h2], by simp [register, h1, h2],
    by simp [register, h1, h2], by simp [register, h1, h2], ?_, ?_,
    by simp [register, h1, h2]⟩
  · intro n hn
    simp [register, h1, h2, hn]
  · intro id hid
    simp [register, h1, h2, hid]

/-- Witness for C2 at the genesis state. -/
theorem register_fresh_success_witness :
    (register emptyState 0 (zeroBytes 21) (zeroBytes 32)).1 = Except.ok () :=
  (register_fresh_success emptyState 0 (zeroBytes 21) (zeroBytes 32) rfl rfl).1

/-- C3: `register` fails exactly when the caller is already registered
(`AccountIdAlreadyRegistered`) or the nickname is taken
(`NicknameAlreadyRegistered`); the identity check is evaluated first, so the
identity error wins when both conditions hold. -/
theorem register_error_characterisation (s : PalletState) (caller : AccountId)
    (nick : Bytes 21) (addr : Bytes 32) :
    ((register s caller nick addr).1 =
        Except.error Error.AccountIdAlreadyRegistered ↔
      (s.itemByAccountId caller).isSome = true) ∧
    ((register s caller nick addr).1 =
        Except.error Error.NicknameAlreadyRegistered ↔
      (s.itemByAccountId caller = none ∧ (s.itemByNickname nick).isSome = true)) ∧
    ((∃ e, (register s caller nick addr).1 = Except.error e) ↔
      ((s.itemByAccountId caller).isSome = true ∨
        (s.itemByNickname nick).isSome = true)) := by
  rcases ho : s.itemByAccountId caller with _ | r <;>
    rcases hn : s.itemByNickname nick with _ | id <;>
      simp [register, ho, hn]

/-- Witness for C3: both conditions hold, the identity error is reported. -/
theorem register_error_characterisation_witness :
    (register (step emptyState (Call.register 0 (zeroBytes 21) (zeroBytes 32))) 0
      (zeroBytes 21) (zeroBytes 32)).1 =
    Except.error Error.AccountIdAlreadyRegistered :=
  (register_error_characterisation
    (step emptyState (Call.register 0 (zeroBytes 21) (zeroBytes 32))) 0
    (zeroBytes 21) (zeroBytes 32)).1.mpr rfl

/-- C4: a failing `register` leaves the state exactly as it was and emits no
event. -/
theorem register_failure_atomic (s : PalletState) (caller : AccountId)
    (nick : Bytes 21) (addr : Bytes 32) (e : Error)
    (h : (register s caller nick addr).1 = Except.error e) :
    (register s caller nick addr).2.1 = s ∧
    (register s caller nick addr).2.2 = [] := by
  rcases ho : s.itemByAccountId caller with _ | r <;>
    rcases hn : s.itemByNickname nick with _ | id <;>
      simp [register, ho, hn] at h ⊢

/-- Witness for C4: a duplicate registration attempt mutates nothing. -/
theorem register_failure_atomic_witness :
    (register (step emptyState (Call.register 0 (zeroBytes 21) (zeroBytes 32))) 0
      nickB (zeroBytes 32)).2.1 =
    step emptyState (Call.register 0 (zeroBytes 21) (zeroBytes 32)) :=
  (register_failure_atomic
    (step emptyState (Call.register 0 (zeroBytes 21) (zeroBytes 32))) 0
    nickB (zeroBytes 32) Error.AccountIdAlreadyRegistered rfl).1

/-- C6: `upsert_contact` always succeeds, the second of two upserts at the
same key wins, other keys and the registry maps are untouched, and repeating
the same upsert is idempotent. -/
theorem upsert_contact_overwrite_idempotent (s : PalletState) (owner : AccountId)
    (name1 name2 addr : Bytes 1000) :
    (upsert_contact s owner name1 addr).1 = Except.ok () ∧
    (upsert_contact s owner name1 addr).2.2 = [] ∧
    ((upsert_contact (upsert_contact s owner name1 addr).2.1 owner name2
        addr).2.1.contactByAccountId owner addr = some { name := name2 }) ∧
    (∀ o a, ¬(o = owner ∧ a = addr) →
      (upsert_contact (upsert_contact s owner name1 addr).2.1 owner name2
        addr).2.1.contactByAccountId o a = s.contactByAccountId o a) ∧
    (upsert_contact (upsert_contact s owner name1 addr).2.1 owner name1
      addr).2.1 = (upsert_contact s owner name1 addr).2.1 ∧
    (upsert_contact s owner name1 addr).2.1.itemByNickname = s.itemByNickname ∧
    (upsert_contact s owner name1 addr).2.1.itemByAccountId = s.itemByAccountId := by
  refine ⟨rfl, rfl, by simp [upsert_contact], ?_, ?_, rfl, rfl⟩
  · intro o a hoa
    simp [upsert_contact, hoa]
  · ext1 <;> try rfl
    funext o a
    by_cases hoa : o = owner ∧ a = addr <;> simp [upsert_contact, hoa]

/-- Witness for C6: overwrite at a concrete key. -/
theorem upsert_contact_overwrite_idempotent_witness :
    (upsert_contact (upsert_contact emptyState 0 (zeroBytes 1000)
        (zeroBytes 1000)).2.1 0 (zeroBytes 1000)
      (zeroBytes 1000)).2.1.contactByAccountId 0 (zeroBytes 1000) =
    some { name := zeroBytes 1000 } :=
  (upsert_contact_overwrite_idempotent emptyState 0 (zeroBytes 1000)
    (zeroBytes 1000) (zeroBytes 1000)).2.2.1

/-- C7: `remove_contact` always succeeds, removing an absent key changes
nothing, removing a present key deletes exactly it, and removing twice equals
removing once. -/
theorem remove_contact_idempotent (s : PalletState) (owner : AccountId)
    (addr : Bytes 1000) :
    (remove_contact s owner addr).1 = Except.ok () ∧
    (remove_contact s owner addr).2.2 = [] ∧
    (s.contactByAccountId owner addr = none →
      (remove_contact s owner addr).2.1 = s) ∧
    (remove_contact s owner addr).2.1.contactByAccountId owner addr = none ∧
    (∀ o a, ¬(o = owner ∧ a = addr) →
      (remove_contact s owner addr).2.1.contactByAccountId o a =
        s.contactByAccountId o a) ∧
    (remove_contact (remove_contact s owner addr).2.1 owner addr).2.1 =
      (remove_contact s owner addr).2.1 := by
  refine ⟨rfl, rfl, ?_, by simp [remove_contact], ?_, ?_⟩
  · intro habs
    ext1 <;> try rfl
    funext o a
    by_cases hoa : o = owner ∧ a = addr
    · obtain ⟨rfl, rfl⟩ := hoa
      simp [remove_contact, habs]
    · simp [remove_contact, hoa]
  · intro o a hoa
    simp [remove_contact, hoa]
  · ext1 <;> try rfl
    funext o a
    by_cases hoa : o = owner ∧ a = addr <;> simp [remove_contact, hoa]

/-- Witness for C7: removing an absent key at genesis is a no-op. -/
theorem remove_contact_idempotent_witness :
    (remove_contact emptyState 0 (zeroBytes 1000)).2.1 = emptyState :=
  (remove_contact_idempotent emptyState 0 (zeroBytes 1000)).2.2.1 rfl

/-- The cross-map consistency of the identity registry: every nickname entry
points to an identity whose stored record carries that nickname, and every
stored record's nickname points back to its identity. -/
def RegistryConsistent (s : PalletState) : Prop :=
  (∀ n id, s.itemByNickname n = some id →
    ∃ r, s.itemByAccountId id = some r ∧ r.nickname = n) ∧
  (∀ id r, s.itemByAccountId id = some r → s.itemByNickname r.nickname = some id)

theorem registryConsistent_emptyState : RegistryConsistent emptyState := by
  constructor <;> intro x y h <;> simp [emptyState] at h

theorem registryConsistent_step (s : PalletState) (c : Call)
    (h : RegistryConsistent s) : RegistryConsistent (step s c) := by
  obtain ⟨h1, h2⟩ := h
  cases c with
  | offer_chat who w o t => exact ⟨h1, h2⟩
  | answer_chat who ans t => exact ⟨h1, h2⟩
  | upsert_contact who n a => exact ⟨h1, h2⟩
  | remove_contact who a => exact ⟨h1, h2⟩
  | register who n a =>
    rcases ho : s.itemByAccountId who with _ | r0
    · rcases hn : s.itemByNickname n with _ | id0
      · constructor
        · intro n' id' hmem
          simp [step, dispatch, register, ho, hn] at hmem ⊢
          by_cases hn' : n' = n
          · subst hn'
            simp at hmem
            subst hmem
            exact ⟨⟨a, n'⟩, by simp, rfl⟩
          · simp [hn'] at hmem
            obtain ⟨r, hr, hrn⟩ := h1 n' id' hmem
            have hid' : id' ≠ who := by
              intro heq
              rw [heq, ho] at hr
              cases hr
            exact ⟨r, by simp [hid', hr], hrn⟩
        · intro id' r' hmem
          simp [step, dispatch, register, ho, hn] at hmem ⊢
          by_cases hid' : id' = who
          · subst hid'
            simp at hmem
            subst hmem
            simp
          · simp [hid'] at hmem
            have hk := h2 id' r' hmem
            have hrn : r'.nickname ≠ n := by
              intro heq
              rw [heq, hn] at hk
              cases hk
            simp [hrn, hk]
      · have : step s (Call.register who n a) = s := by
          simp [step, dispatch, register, ho, hn]
        rw [this]
        exact ⟨h1, h2⟩
    · have : step s (Call.register who n a) = s := by
        simp [step, dispatch, register, ho]
      rw [this]
      exact ⟨h1, h2⟩

theorem registryConsistent_run (s : PalletState) (cs : List Call)
    (h : RegistryConsistent s) : RegistryConsistent (run s cs) := by
  induction cs generalizing s with
  | nil => exact h
  | cons c cs ih => exact ih (step s c) (registryConsistent_step s c h)

/-- C1: in every state reachable from genesis, each nickname is owned by at
most one identity and each identity owns at most one nickname — in both maps,
in both directions. -/
theorem registry_uniqueness (cs : List Call) :
    (∀ n id1 id2, (run emptyState cs).itemByNickname n = some id1 →
      (run emptyState cs).itemByNickname n = some id2 → id1 = id2) ∧
    (∀ n1 n2 id, (run emptyState cs).itemByNickname n1 = some id →
      (run emptyState cs).itemByNickname n2 = some id → n1 = n2) ∧
    (∀ id r1 r2, (run emptyState cs).itemByAccountId id = some r1 →
      (run emptyState cs).itemByAccountId id = some r2 → r1 = r2) ∧
    (∀ id1 id2 r1 r2, (run emptyState cs).itemByAccountId id1 = some r1 →
      (run emptyState cs).itemByAccountId id2 = some r2 →
      r1.nickname = r2.nickname → id1 = id2) := by
  obtain ⟨h1, h2⟩ :=
    registryConsistent_run emptyState cs registryConsistent_emptyState
  refine ⟨?_, ?_, ?_, ?_⟩
  · intro n id1 id2 ha hb
    rw [ha] at hb
    exact Option.some.inj hb
  · intro n1 n2 id ha hb
    obtain ⟨r1, hr1, hn1⟩ := h1 n1 id ha
    obtain ⟨r2, hr2, hn2⟩ := h1 n2 id hb
    rw [hr1] at hr2
    rw [← hn1, ← hn2, Option.some.inj hr2]
  · intro id r1 r2 ha hb
    rw [ha] at hb
    exact Option.some.inj hb
  · intro id1 id2 r1 r2 ha hb hnick
    have k1 := h2 id1 r1 ha
    have k2 := h2 id2 r2 hb
    rw [hnick] at k1
    rw [k1] at k2
    exact Option.some.inj k2

/-- Witness for C1 on a run with one registration. -/
theorem registry_uniqueness_witness :
    (0 : AccountId) = 0 :=
  (registry_uniqueness [Call.register 0 (zeroBytes 21) (zeroBytes 32)]).1
    (zeroBytes 21) 0 0 rfl rfl

/-- C10: in every reachable state the two registry maps agree: a nickname
entry for `id` exists iff `id` has a stored record with that nickname, and
every stored record's nickname points back to its identity. -/
theorem registry_cross_consistency (cs : List Call) :
    (∀ n id, (run emptyState cs).itemByNickname n = some id ↔
      ∃ r, (run emptyState cs).itemByAccountId id = some r ∧ r.nickname = n) ∧
    (∀ id r, (run emptyState cs).itemByAccountId id = some r →
      (run emptyState cs).itemByNickname r.nickname = some id) := by
  obtain ⟨h1, h2⟩ :=
    registryConsistent_run emptyState cs registryConsistent_emptyState
  refine ⟨fun n id => ⟨h1 n id, ?_⟩, h2⟩
  rintro ⟨r, hr, rfl⟩
  exact h2 id r hr

/-- Witness for C10 on a run with one registration. -/
theorem registry_cross_consistency_witness :
    ∃ r, (run emptyState
        [Call.register 0 (zeroBytes 21) (zeroBytes 32)]).itemByAccountId 0 =
      some r ∧ r.nickname = zeroBytes 21 :=
  ((registry_cross_consistency
    [Call.register 0 (zeroBytes 21) (zeroBytes 32)]).1 (zeroBytes 21) 0).mp rfl

theorem step_preserves_itemByAccountId (s : PalletState) (c : Call)
    (id : AccountId) (r : ItemByAccountId)
    (h : s.itemByAccountId id = some r) :
    (step s c).itemByAccountId id = some r := by
  cases c with
  | offer_chat who w o t => exact h
  | answer_chat who ans t => exact h
  | upsert_contact who n a => exact h
  | remove_contact who a => exact h
  | register who n a =>
    rcases ho : s.itemByAccountId who with _ | r0
    · rcases hn : s.itemByNickname n with _ | id0
      · have hne : id ≠ who := by
          intro heq
          rw [heq, ho] at h
          cases h
        simp [step, dispatch, register, ho, hn, hne, h]
      · simpa [step, dispatch, register, ho, hn] using h
    · simpa [step, dispatch, register, ho] using h

theorem step_preserves_itemByNickname (s : PalletState) (c : Call)
    (n : Bytes 21) (id : AccountId) (h : s.itemByNickname n = some id) :
    (step s c).itemByNickname n = some id := by
  cases c with
  | offer_chat who w o t => exact h
  | answer_chat who ans t => exact h
  | upsert_contact who nm a => exact h
  | remove_contact who a => exact h
  | register who nick a =>
    rcases ho : s.itemByAccountId who with _ | r0
    · rcases hn : s.itemByNickname nick with _ | id0
      · have hne : n ≠ nick := by
          intro heq
          rw [heq, hn] at h
          cases h
        simp [step, dispatch, register, ho, hn, hne, h]
      · simpa [step, dispatch, register, ho, hn] using h
    · simpa [step, dispatch, register, ho] using h

theorem run_preserves_itemByAccountId (s : PalletState) (cs : List Call)
    (id : AccountId) (r : ItemByAccountId)
    (h : s.itemByAccountId id = some r) :
    (run s cs).itemByAccountId id = some r := by
  induction cs generalizing s with
  | nil => exact h
  | cons c cs ih => exact ih (step s c) (step_preserves_itemByAccountId s c id r h)

theorem run_preserves_itemByNickname (s : PalletState) (cs : List Call)
    (n : Bytes 21) (id : AccountId) (h : s.itemByNickname n = some id) :
    (run s cs).itemByNickname n = some id := by
  induction cs generalizing s with
  | nil => exact h
  | cons c cs ih => exact ih (step s c) (step_preserves_itemByNickname s c n id h)

theorem register_ok_elim (s : PalletState) (id : AccountId) (nick : Bytes 21)
    (addr : Bytes 32) (hok : (register s id nick addr).1 = Except.ok ()) :
    s.itemByAccountId id = none ∧ s.itemByNickname nick = none := by
  rcases ho : s.itemByAccountId id with _ | r <;>
    rcases hn : s.itemByNickname nick with _ | i <;>
      simp [register, ho, hn] at hok ⊢

/-- C5 counterexample: identity 1, already registered under a different
nickname, re-registers identity 0's nickname and is rejected with
`AccountIdAlreadyRegistered`, not `NicknameAlreadyRegistered` as the claim
states for an arbitrary later identity. -/
theorem register_write_once_counterexample :
    (register emptyState 0 (zeroBytes 21) (zeroBytes 32)).1 = Except.ok () ∧
    (register (run (register emptyState 0 (zeroBytes 21) (zeroBytes 32)).2.1
        [Call.register 1 nickB (zeroBytes 32)]) 1 (zeroBytes 21)
      (zeroBytes 32)).1 = Except.error Error.AccountIdAlreadyRegistered ∧
    ¬((register (run (register emptyState 0 (zeroBytes 21) (zeroBytes 32)).2.1
        [Call.register 1 nickB (zeroBytes 32)]) 1 (zeroBytes 21)
      (zeroBytes 32)).1 = Except.error Error.NicknameAlreadyRegistered) := by
  refine ⟨rfl, rfl, ?_⟩
  intro h
  rw [show (register (run (register emptyState 0 (zeroBytes 21)
      (zeroBytes 32)).2.1 [Call.register 1 nickB (zeroBytes 32)]) 1
      (zeroBytes 21) (zeroBytes 32)).1 =
    Except.error Error.AccountIdAlreadyRegistered from rfl] at h
  simp at h

/-- C5 (amended): once `register(id, nick, addr)` succeeds, in every later
state any re-registration by `id` fails with `AccountIdAlreadyRegistered`,
any registration of `nick` by a different and itself unregistered identity
fails with `NicknameAlreadyRegistered` (an already-registered identity also
fails, but with `AccountIdAlreadyRegistered`), and the original binding is
still in place. -/
theorem register_write_once (s : PalletState) (id : AccountId) (nick : Bytes 21)
    (addr : Bytes 32) (hok : (register s id nick addr).1 = Except.ok ())
    (cs : List Call) :
    (∀ nick2 addr2,
      (register (run (register s id nick addr).2.1 cs) id nick2 addr2).1 =
        Except.error Error.AccountIdAlreadyRegistered) ∧
    (∀ id2 addr2, id2 ≠ id →
      (run (register s id nick addr).2.1 cs).itemByAccountId id2 = none →
      (register (run (register s id nick addr).2.1 cs) id2 nick addr2).1 =
        Except.error Error.NicknameAlreadyRegistered) ∧
    (run (register s id nick addr).2.1 cs).itemByAccountId id =
      some { address := addr, nickname := nick } ∧
    (run (register s id nick addr).2.1 cs).itemByNickname nick = some id := by
  obtain ⟨ho, hn⟩ := register_ok_elim s id nick addr hok
  have hacc : (register s id nick addr).2.1.itemByAccountId id =
      some { address := addr, nickname := nick } := by
    simp [register, ho, hn]
  have hnick : (register s id nick addr).2.1.itemByNickname nick = some id := by
    simp [register, ho, hn]
  have hacc2 := run_preserves_itemByAccountId (register s id nick addr).2.1 cs
    id { address := addr, nickname := nick } hacc
  have hnick2 := run_preserves_itemByNickname (register s id nick addr).2.1 cs
    nick id hnick
  revert hacc2 hnick2
  generalize run (register s id nick addr).2.1 cs = s2
  intro hacc2 hnick2
  refine ⟨?_, ?_, hacc2, hnick2⟩
  · intro nick2 addr2
    simp [register, hacc2]
  · intro id2 addr2 hne habs
    simp [register, habs, hnick2]

/-- Witness for C5: after identity 0 registers the zero nickname and another
call runs, identity 0 cannot register again and fresh identity 1 cannot take
the zero nickname. -/
theorem register_write_once_witness :
    (register (run (register emptyState 0 (zeroBytes 21) (zeroBytes 32)).2.1
        [Call.upsert_contact 0 (zeroBytes 1000) (zeroBytes 1000)]) 1 nickB
      (zeroBytes 32)).1 = Except.ok () ∨
    (register (run (register emptyState 0 (zeroBytes 21) (zeroBytes 32)).2.1
        [Call.upsert_contact 0 (zeroBytes 1000) (zeroBytes 1000)]) 1
      (zeroBytes 21) (zeroBytes 32)).1 =
      Except.error Error.NicknameAlreadyRegistered :=
  Or.inr ((register_write_once emptyState 0 (zeroBytes 21) (zeroBytes 32) rfl
    [Call.upsert_contact 0 (zeroBytes 1000) (zeroBytes 1000)]).2.1 1
    (zeroBytes 32) (by simp) rfl)

/-- C8: `offer_chat` and `answer_chat` always succeed, emit exactly one event
whose fields are the supplied arguments in source order, and change no
storage map. -/
theorem signal_passthrough (s : PalletState) (who : AccountId)
    (welcome : Bytes 300) (offer : Bytes 2048) (answer : Bytes 2048)
    (t : AccountId) :
    offer_chat s who welcome offer t =
      (Except.ok (), s, [Event.Offer offer who t welcome]) ∧
    answer_chat s who answer t =
      (Except.ok (), s, [Event.Answer answer who t]) :=
  ⟨rfl, rfl⟩

def isOkResult : DispatchResult → Bool
  | Except.ok _ => true
  | Except.error _ => false

/-- Along a run, did some `register` call by `id` return `Ok`? -/
def successfulRegisterBy (id : AccountId) : PalletState → List Call → Bool
  | _, [] => false
  | s, c :: cs =>
    (match c with
     | Call.register who n a => decide (who = id) && isOkResult (register s who n a).1
     | _ => false) || successfulRegisterBy id (step s c) cs

theorem itemByAccountId_none_of_no_successful_register (id : AccountId)
    (s : PalletState) (cs : List Call) (hnone : s.itemByAccountId id = none)
    (h : successfulRegisterBy id s cs = false) :
    (run s cs).itemByAccountId id = none := by
  induction cs generalizing s with
  | nil => exact hnone
  | cons c cs ih =>
    cases c with
    | offer_chat who w o t =>
      simp only [successfulRegisterBy, Bool.false_or] at h
      exact ih (step s (Call.offer_chat who w o t)) hnone h
    | answer_chat who ans t =>
      simp only [successfulRegisterBy, Bool.false_or] at h
      exact ih (step s (Call.answer_chat who ans t)) hnone h
    | upsert_contact who n a =>
      simp only [successfulRegisterBy, Bool.false_or] at h
      exact ih (step s (Call.upsert_contact who n a)) hnone h
    | remove_contact who a =>
      simp only [successfulRegisterBy, Bool.false_or] at h
      exact ih (step s (Call.remove_contact who a)) hnone h
    | register who n a =>
      simp only [successfulRegisterBy, Bool.or_eq_false_iff,
        Bool.and_eq_false_iff, decide_eq_false_iff_not] at h
      obtain ⟨h1, h2⟩ := h
      refine ih (step s (Call.register who n a)) ?_ h2
      by_cases hw : who = id
      · subst hw
        rcases hn : s.itemByNickname n with _ | id0
        · exfalso
          rcases h1 with h1 | h1
          · exact h1 rfl
          · rw [show (register s who n a).1 = Except.ok () by
              simp [register, hnone, hn]] at h1
            simp [isOkResult] at h1
        · simp [step, dispatch, register, hnone, hn]
      · rcases ho : s.itemByAccountId who with _ | r0
        · rcases hn : s.itemByNickname n with _ | id0
          · have hne : id ≠ who := fun heq => hw heq.symm
            simp [step, dispatch, register, ho, hn, hne, hnone]
          · simpa [step, dispatch, register, ho, hn] using hnone
        · simpa [step, dispatch, register, ho] using hnone

/-- C9: reading the identity→record map for an identity with no successful
registration in the run yields the all-zero default record, exactly what the
getter yields for an identity registered with all-zero nickname and address. -/
theorem valuequery_default_for_unregistered (cs : List Call) (id : AccountId)
    (h : successfulRegisterBy id emptyState cs = false) :
    (run emptyState cs).itemByAccountId id = none ∧
    get_address_by_account_id (run emptyState cs) id =
      { address := zeroBytes 32, nickname := zeroBytes 21 } ∧
    get_address_by_account_id (run emptyState cs) id =
      get_address_by_account_id
        (register emptyState id (zeroBytes 21) (zeroBytes 32)).2.1 id := by
  have hnone :=
    itemByAccountId_none_of_no_successful_register id emptyState cs rfl h
  refine ⟨hnone, ?_, ?_⟩
  · simp [get_address_by_account_id, hnone, ItemByAccountId.defaultValue]
  · have hL : get_address_by_account_id (run emptyState cs) id =
        { address := zeroBytes 32, nickname := zeroBytes 21 } := by
      simp [get_address_by_account_id, hnone, ItemByAccountId.defaultValue]
    have hR : get_address_by_account_id
        (register emptyState id (zeroBytes 21) (zeroBytes 32)).2.1 id =
        { address := zeroBytes 32, nickname := zeroBytes 21 } := by
      simp [get_address_by_account_id, register, emptyState]
    rw [hL, hR]

/-- Witness for C9: identity 0's registration attempt fails because the zero
nickname is taken, so it reads back as the default record. -/
theorem valuequery_default_for_unregistered_witness :
    get_address_by_account_id
      (run emptyState [Call.register 1 (zeroBytes 21) (zeroBytes 32),
        Call.register 0 (zeroBytes 21) (zeroBytes 32)]) 0 =
    { address := zeroBytes 32, nickname := zeroBytes 21 } :=
  (valuequery_default_for_unregistered
    [Call.register 1 (zeroBytes 21) (zeroBytes 32),
      Call.register 0 (zeroBytes 21) (zeroBytes 32)] 0 rfl).2.1

end Diffychat
